import Mathlib

/-
Verification of the interview session lifecycle engine: a shallow embedding of
the interview state machine, the orchestrator, the question/feedback/adaptation
engines and the in-memory session store, together with theorems about the
behaviour the specification describes.

Modelling conventions:
* `Date` timestamps become `Nat` milliseconds; every operation that reads the
  clock takes an explicit `now : Nat` argument.
* Fallible code (thrown errors) becomes `Except OrchError _` results.
* The in-memory repository's two `Map`s become function-valued fields.
* Because the TypeScript repository stores object references, a session mutated
  by the orchestrator is visible in the store even before `save`; the embedding
  makes this explicit with `Repo.reflect` on the paths where the orchestrator
  throws after mutating.
* The source field `partial` on feedback is named `provisional` here.
-/

namespace InterviewBE

/-! ### Domain enums (src/modules/interview/domain) -/

inductive InterviewState where
  | INTRO
  | QUESTION
  | RECORDING
  | PROCESSING
  | MICRO_FEEDBACK
  | CHECKPOINT
  | COMPLETED
  | ERROR
  | PAUSED
deriving DecidableEq, Fintype

inductive InterviewEvent where
  | INTRO_DONE
  | START_RECORDING
  | ANSWER_SUBMITTED
  | PROCESSING_DONE
  | FEEDBACK_ACK
  | CHECKPOINT_ACK
  | COMPLETE_INTERVIEW
  | PAUSE
  | RESUME
deriving DecidableEq, Fintype

/-- The static transition table `INTERVIEW_STATE_TRANSITIONS`
(interview-transitions.ts): `(state, event) → next state`, `none` when the
pair is absent from the table. -/
def INTERVIEW_STATE_TRANSITIONS : InterviewState → InterviewEvent → Option InterviewState
  | .INTRO, .INTRO_DONE => some .QUESTION
  | .QUESTION, .START_RECORDING => some .RECORDING
  | .QUESTION, .COMPLETE_INTERVIEW => some .COMPLETED
  | .QUESTION, .PAUSE => some .PAUSED
  | .RECORDING, .ANSWER_SUBMITTED => some .PROCESSING
  | .PROCESSING, .PROCESSING_DONE => some .MICRO_FEEDBACK
  | .MICRO_FEEDBACK, .FEEDBACK_ACK => some .QUESTION
  | .MICRO_FEEDBACK, .COMPLETE_INTERVIEW => some .COMPLETED
  | .MICRO_FEEDBACK, .PAUSE => some .PAUSED
  | .CHECKPOINT, .CHECKPOINT_ACK => some .QUESTION
  | .CHECKPOINT, .PAUSE => some .PAUSED
  | .PAUSED, .RESUME => some .QUESTION
  | _, _ => none

/-- `StateManager.canTransition` (state-manager.service.ts). -/
def canTransition (currentState : InterviewState) (event : InterviewEvent) : Bool :=
  (INTERVIEW_STATE_TRANSITIONS currentState event).isSome

/-! ### Screen mapper (screen-mapper.ts) -/

inductive Screen where
  | InterviewIntroScreen
  | QuestionScreen
  | RecordingScreen
  | ProcessingScreen
  | MicroFeedbackScreen
  | CheckpointScreen
  | InterviewSummaryScreen
  | ErrorScreen
  | PausedScreen
deriving DecidableEq

/-- `mapStateToScreen` (screen-mapper.ts). -/
def mapStateToScreen : InterviewState → Screen
  | .INTRO => .InterviewIntroScreen
  | .QUESTION => .QuestionScreen
  | .RECORDING => .RecordingScreen
  | .PROCESSING => .ProcessingScreen
  | .MICRO_FEEDBACK => .MicroFeedbackScreen
  | .CHECKPOINT => .CheckpointScreen
  | .COMPLETED => .InterviewSummaryScreen
  | .ERROR => .ErrorScreen
  | .PAUSED => .PausedScreen

/-! ### Questions (question-engine.service.ts) -/

inductive QuestionCategory where
  | TECHNICAL
  | BEHAVIORAL
  | PROBLEM_SOLVING
  | COMMUNICATION
deriving DecidableEq

inductive Difficulty where
  | EASY
  | MEDIUM
  | HARD
deriving DecidableEq

structure Question where
  id : String
  text : String
  category : QuestionCategory
  difficulty : Difficulty
  expectedSignals : List String
  estimatedDuration : Nat
deriving DecidableEq

namespace QuestionEngine

/-- The fixed mock question bank `MOCK_QUESTIONS` (10 questions). -/
def MOCK_QUESTIONS : List Question :=
  [ { id := "q1"
    , text := "¿Puedes contarme sobre tu experiencia más reciente en desarrollo de software?"
    , category := .BEHAVIORAL, difficulty := .EASY
    , expectedSignals := ["experience", "achievements", "learnings"]
    , estimatedDuration := 120 }
  , { id := "q2"
    , text := "¿Cuál fue el mayor desafío técnico que enfrentaste en tu último proyecto?"
    , category := .TECHNICAL, difficulty := .MEDIUM
    , expectedSignals := ["problem_solving", "technical_depth", "impact"]
    , estimatedDuration := 150 }
  , { id := "q3"
    , text := "¿Cómo manejas situaciones de alta presión o deadlines ajustados?"
    , category := .BEHAVIORAL, difficulty := .MEDIUM
    , expectedSignals := ["stress_management", "prioritization", "communication"]
    , estimatedDuration := 120 }
  , { id := "q4"
    , text := "Describe un proyecto donde tuviste que aprender una tecnología nueva. ¿Cómo lo abordaste?"
    , category := .PROBLEM_SOLVING, difficulty := .MEDIUM
    , expectedSignals := ["learning_ability", "initiative", "resourcefulness"]
    , estimatedDuration := 150 }
  , { id := "q5"
    , text := "¿Qué herramientas y metodologías usas para garantizar la calidad del código?"
    , category := .TECHNICAL, difficulty := .MEDIUM
    , expectedSignals := ["testing", "code_quality", "best_practices"]
    , estimatedDuration := 120 }
  , { id := "q6"
    , text := "Cuéntame sobre una vez que tuviste que dar feedback constructivo a un compañero de equipo."
    , category := .COMMUNICATION, difficulty := .HARD
    , expectedSignals := ["empathy", "communication", "leadership"]
    , estimatedDuration := 150 }
  , { id := "q7"
    , text := "¿Cómo priorizas tareas cuando tienes múltiples proyectos urgentes?"
    , category := .PROBLEM_SOLVING, difficulty := .MEDIUM
    , expectedSignals := ["prioritization", "decision_making", "impact_awareness"]
    , estimatedDuration := 120 }
  , { id := "q8"
    , text := "Describe tu experiencia con sistemas distribuidos o arquitecturas de microservicios."
    , category := .TECHNICAL, difficulty := .HARD
    , expectedSignals := ["scalability", "system_design", "trade_offs"]
    , estimatedDuration := 180 }
  , { id := "q9"
    , text := "¿Qué te motiva a continuar creciendo como profesional?"
    , category := .BEHAVIORAL, difficulty := .EASY
    , expectedSignals := ["motivation", "career_goals", "passion"]
    , estimatedDuration := 120 }
  , { id := "q10"
    , text := "¿Tienes alguna pregunta para mí sobre la empresa o el rol?"
    , category := .COMMUNICATION, difficulty := .EASY
    , expectedSignals := ["curiosity", "engagement", "preparation"]
    , estimatedDuration := 120 } ]

/-- `QuestionEngine.getQuestion`: throws "No more questions available" when the
index is out of range, modelled by `none`. -/
def getQuestion (questionIndex : Nat) : Option Question :=
  if questionIndex ≥ MOCK_QUESTIONS.length then none
  else MOCK_QUESTIONS.get? questionIndex

/-- `QuestionEngine.getTotalQuestions`. -/
def getTotalQuestions : Nat := MOCK_QUESTIONS.length

end QuestionEngine

/-! ### Feedback engine (feedback-engine.service.ts) -/

/-- The feedback shape produced by `FeedbackEngine.generateMockFeedback`.
The source field `partial` is named `provisional` here. -/
structure Feedback where
  message : String
  score : Int
  strengths : List String
  improvements : List String
  flags : List String
  provisional : Bool
deriving DecidableEq

namespace FeedbackEngine

/-- The `messages` array inside `generateMockFeedback`. -/
def feedbackMessages : List String :=
  [ "Good answer! Clear and well-articulated."
  , "Nice explanation! I appreciate the detail."
  , "Great response! You covered the key points."
  , "Solid answer! Good use of examples."
  , "Excellent! Very comprehensive response." ]

/-- `messages[Math.min(score - 1, messages.length - 1)]`. -/
def messageForScore (score : Int) : String :=
  (feedbackMessages.get? (min (score - 1).toNat (feedbackMessages.length - 1))).getD ""

/-- `FeedbackEngine.generateMockFeedback(answerDuration)`: heuristic duration
buckets.  `isShort` is `< 30000` ms, `isLong` is `> 300000` ms, `isOptimal`
is `60000 ≤ d ≤ 180000` ms, checked in that order; otherwise the neutral
score 3 with no flags. -/
def generateMockFeedback (answerDuration : Int) : Feedback :=
  if answerDuration < 30000 then
    { message := messageForScore 2
    , score := 2
    , strengths := []
    , improvements := [ "Try to elaborate more on your answer"
                      , "Provide specific examples to illustrate your points" ]
    , flags := ["TOO_SHORT"]
    , provisional := true }
  else if answerDuration > 300000 then
    { message := messageForScore 3
    , score := 3
    , strengths := []
    , improvements := ["Try to be more concise", "Focus on the most relevant points"]
    , flags := ["TOO_LONG"]
    , provisional := true }
  else if 60000 ≤ answerDuration ∧ answerDuration ≤ 180000 then
    { message := messageForScore 4
    , score := 4
    , strengths := ["Good answer length", "Well-structured response"]
    , improvements := []
    , flags := []
    , provisional := true }
  else
    { message := messageForScore 3
    , score := 3
    , strengths := []
    , improvements := []
    , flags := []
    , provisional := true }

end FeedbackEngine

/-! ### Adaptation engine (adaptation-engine.service.ts) -/

inductive NextAction where
  | NEXT_QUESTION
  | CHECKPOINT
  | COMPLETE
deriving DecidableEq

structure AdaptationDecision where
  action : NextAction
  reason : String
  confidence : ℚ
deriving DecidableEq

namespace AdaptationEngine

/-- `AdaptationEngine.decide(context)`; `questionIndex` is the 0-based ordinal
of the question just answered.  Rule 3 of the source (checkpoint on repeated
low scores) is a no-op, so the `feedback` argument is unused. -/
def decide (questionIndex totalQuestions : Int) (feedback : Option Feedback) : AdaptationDecision :=
  if questionIndex ≥ totalQuestions - 1 then
    { action := .COMPLETE, reason := "All questions completed", confidence := 1 }
  else
    let answeredQuestions := questionIndex + 1
    if questionIndex > 0 ∧ answeredQuestions % 5 = 0 then
      { action := .CHECKPOINT
      , reason := "Periodic checkpoint (after question " ++ toString answeredQuestions ++ ")"
      , confidence := 9/10 }
    else
      { action := .NEXT_QUESTION, reason := "Continue to next question", confidence := 95/100 }

end AdaptationEngine

/-! ### Session entity (interview-session.entity.ts) -/

structure ResponseMetrics where
  durationMs : Int
  silenceRatio : ℚ
  speechPace : ℚ
  energyLevel : ℚ
  wordCount : Option Nat
  technicalTerms : Option (List String)
deriving DecidableEq

structure Answer where
  id : String
  interviewId : String
  questionId : String
  audioUrl : String
  durationMs : Int
  status : String
  transcription : Option String
  metrics : Option ResponseMetrics
  createdAt : Nat
deriving DecidableEq

structure CategoryScore where
  category : String
  score : ℚ
  weight : ℚ
deriving DecidableEq

structure Checkpoint where
  id : String
  interviewId : String
  questionIndex : Nat
  score : ℚ
  categoryBreakdown : List CategoryScore
  message : String
  insights : List String
  createdAt : Nat
deriving DecidableEq

/-- The `InterviewSession` entity.  `nextAction` models the dynamically
attached `(session as any).nextAction` property written by the orchestrator on
PROCESSING_DONE.  The `lastFeedback` field holds the feedback-engine record
(the source stores it through an `as any` cast). -/
structure InterviewSession where
  id : String
  userId : String
  roleId : String
  state : InterviewState
  previousState : Option InterviewState
  currentQuestionIndex : Nat
  askedQuestions : List String
  totalQuestions : Nat
  lastFeedback : Option Feedback
  confidenceTrend : ℚ
  checkpointHistory : List Checkpoint
  answers : List Answer
  blueprintId : String
  createdAt : Nat
  updatedAt : Nat
  lastHeartbeat : Nat
  completedAt : Option Nat
  nextAction : Option NextAction
deriving DecidableEq

/-- `InterviewSession.isActive()`. -/
def InterviewSession.isActive (s : InterviewSession) : Bool :=
  !([InterviewState.COMPLETED, InterviewState.ERROR].contains s.state)

/-- `InterviewSession.isResumable()`. -/
def InterviewSession.isResumable (s : InterviewSession) : Bool :=
  [InterviewState.PAUSED, InterviewState.QUESTION,
   InterviewState.MICRO_FEEDBACK, InterviewState.CHECKPOINT].contains s.state

/-- `InterviewSession.isExpired()`: more than 24 hours (in ms) since the last
heartbeat.  The source divides by `1000*60*60` and compares with 24; over the
reals that is equivalent to comparing the millisecond difference with
`24*60*60*1000` (a clock earlier than the heartbeat is not expired either
way). -/
def InterviewSession.isExpired (s : InterviewSession) (now : Nat) : Bool :=
  decide (24 * 60 * 60 * 1000 < now - s.lastHeartbeat)

/-- `InterviewSession.updateHeartbeat()` (the entity method: sets both
`lastHeartbeat` and `updatedAt`). -/
def InterviewSession.updateHeartbeat (s : InterviewSession) (now : Nat) : InterviewSession :=
  { s with lastHeartbeat := now, updatedAt := now }

/-- `InterviewSession.transition(newState)`. -/
def InterviewSession.transition (s : InterviewSession) (newState : InterviewState) (now : Nat) :
    InterviewSession :=
  { s with previousState := some s.state, state := newState, updatedAt := now }

/-- `InterviewSession.updateFeedback(feedback)`. -/
def InterviewSession.updateFeedback (s : InterviewSession) (f : Feedback) (now : Nat) :
    InterviewSession :=
  { s with lastFeedback := some f, updatedAt := now }

/-- `InterviewSession.complete()`. -/
def InterviewSession.complete (s : InterviewSession) (now : Nat) : InterviewSession :=
  { s with state := .COMPLETED, completedAt := some now, updatedAt := now }

/-! ### In-memory repository (in-memory.repository.ts) -/

/-- The repository's two maps: `interviewsById` and `activeInterviewByUser`
(user id → active interview id). -/
structure Repo where
  interviewsById : String → Option InterviewSession
  activeInterviewByUser : String → Option String

def emptyRepo : Repo :=
  { interviewsById := fun _ => none, activeInterviewByUser := fun _ => none }

/-- `InMemoryInterviewRepository.create`: insert into the primary map and, if
the session is not COMPLETED, index it as the user's active session
(silently replacing any prior pointer). -/
def Repo.create (r : Repo) (s : InterviewSession) : Repo :=
  let r1 : Repo :=
    { r with interviewsById := fun id => if id = s.id then some s else r.interviewsById id }
  if s.state ≠ InterviewState.COMPLETED then
    { r1 with activeInterviewByUser := fun u =>
        if u = s.userId then some s.id else r1.activeInterviewByUser u }
  else r1

/-- `InMemoryInterviewRepository.save`: touch `updatedAt` (simulated DB
trigger), upsert the primary record, and repair the secondary index (delete
the active pointer on COMPLETED, set it otherwise). -/
def Repo.save (r : Repo) (s : InterviewSession) (now : Nat) : Repo :=
  let s' : InterviewSession := { s with updatedAt := now }
  let r1 : Repo :=
    { r with interviewsById := fun id => if id = s.id then some s' else r.interviewsById id }
  if s'.state = InterviewState.COMPLETED then
    { r1 with activeInterviewByUser := fun u =>
        if u = s.userId then none else r1.activeInterviewByUser u }
  else
    { r1 with activeInterviewByUser := fun u =>
        if u = s.userId then some s.id else r1.activeInterviewByUser u }

/-- Errors surfaced by the repository and the orchestrator. -/
inductive OrchError where
  | interviewNotFound
  | invalidTransition
  | noMoreQuestions
  | cannotResume
deriving DecidableEq

/-- `InMemoryInterviewRepository.updateHeartbeat`: set only `lastHeartbeat` on
the stored record, deliberately not calling `save` (so `updatedAt` is
untouched and the secondary index is not rewritten). -/
def Repo.updateHeartbeat (r : Repo) (id : String) (now : Nat) : Except OrchError Repo :=
  match r.interviewsById id with
  | none => .error .interviewNotFound
  | some session =>
      .ok { r with interviewsById := fun i =>
              if i = id then some { session with lastHeartbeat := now }
              else r.interviewsById i }

/-- The TypeScript store keeps object references, so a session the
orchestrator has mutated is visible in the store even before `save` is called.
`reflect` records such a mutation in the primary map without the `save`
side effects; it is used on the paths where the orchestrator throws after
having already mutated the session. -/
def Repo.reflect (r : Repo) (s : InterviewSession) : Repo :=
  { r with interviewsById := fun id => if id = s.id then some s else r.interviewsById id }

/-! ### Orchestrator (interview-orchestrator.ts) -/

/-- The event-specific payload of an orchestrator response. -/
inductive Payload where
  | question (q : Question)
  | feedback (f : Feedback)
  | decision (d : AdaptationDecision)
  | checkpoint (score : ℚ) (progress : ℚ)
  | completeAck (totalQuestions : Nat)
  | summary (text : String) (totalQuestions : Nat)
  | paused (message : String) (previousState : InterviewState)
  | resumedQ (q : Question) (message : String)
  | empty
deriving DecidableEq

structure DispatchResult where
  state : InterviewState
  screen : Screen
  payload : Payload
deriving DecidableEq

/-- Commit of a dispatch: `session.transition(nextState)` followed by
`repository.save(session)` and the `{state, screen, payload}` response. -/
def commit (r : Repo) (s : InterviewSession) (ns : InterviewState) (payload : Payload)
    (now : Nat) : Repo × Except OrchError DispatchResult :=
  let s' := s.transition ns now
  (r.save s' now, .ok { state := ns, screen := mapStateToScreen ns, payload := payload })

/-- `InterviewOrchestrator.next(sessionId, event, data)`.

The first component is the repository after the call (the store may have been
mutated even when the call fails, because it aliases the session object); the
second is the thrown error or the returned `{state, screen, payload}`.

`data` carries the only field of `data` the source reads:
`data?.answerDuration ?? 60000`.

Validation happens before any side effect: for every event except
FEEDBACK_ACK the static table is consulted (`assertTransition`), while
FEEDBACK_ACK only requires the current state to be MICRO_FEEDBACK and
resolves its destination dynamically from `session.nextAction`.

Step 4 of the source resolves the next state with
`stateManager.transition(session.state, event)`, reading `session.state`
again after the side effects.  COMPLETE_INTERVIEW is the one event whose side
effect mutates the state (`session.complete()` sets COMPLETED), so its step 4
lookup happens on the mutated state; every other event's step 4 lookup
coincides with the validation lookup, which each arm below reuses. -/
def next (r : Repo) (sessionId : String) (event : InterviewEvent) (data : Option Int)
    (now : Nat) : Repo × Except OrchError DispatchResult :=
  match r.interviewsById sessionId with
  | none => (r, .error .interviewNotFound)
  | some session =>
    match event with
    | .INTRO_DONE =>
      match INTERVIEW_STATE_TRANSITIONS session.state .INTRO_DONE with
      | none => (r, .error .invalidTransition)
      | some ns =>
        match QuestionEngine.getQuestion session.currentQuestionIndex with
        | none => (r, .error .noMoreQuestions)
        | some question => commit r session ns (.question question) now
    | .START_RECORDING =>
      match INTERVIEW_STATE_TRANSITIONS session.state .START_RECORDING with
      | none => (r, .error .invalidTransition)
      | some ns => commit r session ns .empty now
    | .ANSWER_SUBMITTED =>
      match INTERVIEW_STATE_TRANSITIONS session.state .ANSWER_SUBMITTED with
      | none => (r, .error .invalidTransition)
      | some ns =>
        let feedback := FeedbackEngine.generateMockFeedback (data.getD 60000)
        commit r (session.updateFeedback feedback now) ns (.feedback feedback) now
    | .PROCESSING_DONE =>
      match INTERVIEW_STATE_TRANSITIONS session.state .PROCESSING_DONE with
      | none => (r, .error .invalidTransition)
      | some ns =>
        let decision := AdaptationEngine.decide (session.currentQuestionIndex : Int)
          (session.totalQuestions : Int) session.lastFeedback
        commit r { session with nextAction := some decision.action } ns
          (.decision decision) now
    | .FEEDBACK_ACK =>
      if session.state = InterviewState.MICRO_FEEDBACK then
        match session.nextAction with
        | some .CHECKPOINT =>
          commit r session .CHECKPOINT
            (.checkpoint session.confidenceTrend
              ((session.currentQuestionIndex : ℚ) / (session.totalQuestions : ℚ))) now
        | some .COMPLETE =>
          commit r (session.complete now) .COMPLETED
            (.completeAck (session.currentQuestionIndex + 1)) now
        | _ =>
          let s1 := { session with currentQuestionIndex := session.currentQuestionIndex + 1 }
          match QuestionEngine.getQuestion (s1.currentQuestionIndex - 1) with
          | none => (r.reflect s1, .error .noMoreQuestions)
          | some answered =>
            let s2 := { s1 with askedQuestions := s1.askedQuestions ++ [answered.id] }
            match QuestionEngine.getQuestion s2.currentQuestionIndex with
            | none => (r.reflect s2, .error .noMoreQuestions)
            | some nextQuestion => commit r s2 .QUESTION (.question nextQuestion) now
      else (r, .error .invalidTransition)
    | .CHECKPOINT_ACK =>
      match INTERVIEW_STATE_TRANSITIONS session.state .CHECKPOINT_ACK with
      | none => (r, .error .invalidTransition)
      | some ns =>
        let s1 := { session with currentQuestionIndex := session.currentQuestionIndex + 1 }
        match QuestionEngine.getQuestion s1.currentQuestionIndex with
        | none => (r.reflect s1, .error .noMoreQuestions)
        | some nextQuestion => commit r s1 ns (.question nextQuestion) now
    | .COMPLETE_INTERVIEW =>
      match INTERVIEW_STATE_TRANSITIONS session.state .COMPLETE_INTERVIEW with
      | none => (r, .error .invalidTransition)
      | some _ =>
        let s1 := session.complete now
        -- Step 4 of the source calls `stateManager.transition(session.state,
        -- event)` on the state the side effect `session.complete()` has
        -- already mutated to COMPLETED; the COMPLETED row of the table is
        -- empty, so the dispatch throws InvalidTransition after the aliased
        -- mutation and never reaches `save`.
        match INTERVIEW_STATE_TRANSITIONS s1.state .COMPLETE_INTERVIEW with
        | none => (r.reflect s1, .error .invalidTransition)
        | some ns =>
          commit r s1 ns (.summary "Interview completed successfully"
            (s1.currentQuestionIndex + 1)) now
    | .PAUSE =>
      match INTERVIEW_STATE_TRANSITIONS session.state .PAUSE with
      | none => (r, .error .invalidTransition)
      | some ns =>
        commit r { session with previousState := some session.state } ns
          (.paused "Interview paused" session.state) now
    | .RESUME =>
      match INTERVIEW_STATE_TRANSITIONS session.state .RESUME with
      | none => (r, .error .invalidTransition)
      | some ns =>
        match QuestionEngine.getQuestion session.currentQuestionIndex with
        | none => (r, .error .noMoreQuestions)
        | some question => commit r session ns (.resumedQ question "Interview resumed") now

/-- `InterviewOrchestrator.startInterview(userId, roleId)`: build a fresh
INTRO session (the generated UUID is modelled as the explicit `sessionId`
argument), `repository.create` it, then dispatch INTRO_DONE through `next`.
The TypeScript wrapper reshapes the response; the state and repository
evolution are what matter here. -/
def startInterview (r : Repo) (sessionId userId roleId : String) (now : Nat) :
    Repo × Except OrchError DispatchResult :=
  let session : InterviewSession :=
    { id := sessionId
    , userId := userId
    , roleId := roleId
    , state := .INTRO
    , previousState := none
    , currentQuestionIndex := 0
    , askedQuestions := []
    , totalQuestions := QuestionEngine.getTotalQuestions
    , lastFeedback := none
    , confidenceTrend := 0
    , checkpointHistory := []
    , answers := []
    , blueprintId := ""
    , createdAt := now
    , updatedAt := now
    , lastHeartbeat := now
    , completedAt := none
    , nextAction := none }
  let r1 := r.create session
  next r1 sessionId .INTRO_DONE none now

/-- `InterviewOrchestrator.resume(interviewId)`: load, require `isResumable()`
(else `CannotResume`), bump the heartbeat and `save`, then dispatch RESUME
through `next`. -/
def resume (r : Repo) (interviewId : String) (now : Nat) :
    Repo × Except OrchError DispatchResult :=
  match r.interviewsById interviewId with
  | none => (r, .error .interviewNotFound)
  | some session =>
    if session.isResumable then
      let s1 := session.updateHeartbeat now
      let r1 := r.save s1 now
      next r1 interviewId .RESUME none now
    else (r, .error .cannotResume)

/-- `InterviewOrchestrator.updateHeartbeat(interviewId)`: delegate to the
repository's specialised method. -/
def orchestratorUpdateHeartbeat (r : Repo) (interviewId : String) (now : Nat) :
    Except OrchError Repo :=
  Repo.updateHeartbeat r interviewId now

/-! ### Invariants and reachability -/

/-- The completion invariant: a stored session is COMPLETED exactly when its
`completedAt` timestamp is set. -/
def completionInv (r : Repo) : Prop :=
  ∀ id s, r.interviewsById id = some s →
    (s.state = InterviewState.COMPLETED ↔ s.completedAt ≠ none)

/-- Well-formedness of the active-session index: every pointer leads to a
stored session of that user whose state is not COMPLETED. -/
def RepoWF (r : Repo) : Prop :=
  ∀ u id, r.activeInterviewByUser u = some id →
    ∃ s, r.interviewsById id = some s ∧ s.userId = u ∧
      s.state ≠ InterviewState.COMPLETED

/-- Repositories reachable through the orchestrator's operations:
`startInterview`, any sequence of `next` dispatches (which the public
`submitAnswer`/`continue`/`pause` wrappers are compositions of), `resume`, and
`updateHeartbeat`. -/
inductive Reachable : Repo → Prop where
  | empty : Reachable emptyRepo
  | start (r : Repo) (sid uid rid : String) (now : Nat) :
      Reachable r → Reachable (startInterview r sid uid rid now).1
  | step (r : Repo) (sid : String) (e : InterviewEvent) (d : Option Int) (now : Nat) :
      Reachable r → Reachable (next r sid e d now).1
  | resumeStep (r : Repo) (sid : String) (now : Nat) :
      Reachable r → Reachable (resume r sid now).1
  | heartbeatStep (r r' : Repo) (sid : String) (now : Nat) :
      Reachable r → Repo.updateHeartbeat r sid now = .ok r' → Reachable r'

/-! ### Concrete instances used in witnesses -/

/-- A session with the given id, user, state, ordinal, heartbeat and pending
decision, and defaulted remaining fields (total of 10 questions, as produced
by `startInterview`). -/
def mkSession (sid uid : String) (st : InterviewState) (idx : Nat) (hb : Nat)
    (na : Option NextAction) : InterviewSession :=
  { id := sid
  , userId := uid
  , roleId := "role"
  , state := st
  , previousState := none
  , currentQuestionIndex := idx
  , askedQuestions := []
  , totalQuestions := 10
  , lastFeedback := none
  , confidenceTrend := 0
  , checkpointHistory := []
  , answers := []
  , blueprintId := ""
  , createdAt := 0
  , updatedAt := 0
  , lastHeartbeat := hb
  , completedAt := none
  , nextAction := na }

/-- A repository holding exactly one session, indexed as its user's active
session. -/
def singleRepo (s : InterviewSession) : Repo :=
  { interviewsById := fun id => if id = s.id then some s else none
  , activeInterviewByUser := fun u => if u = s.userId then some s.id else none }

/-- Whether an orchestrator call returned normally (did not throw). -/
def isOkResult : Except OrchError DispatchResult → Bool
  | .ok _ => true
  | .error _ => false

/-! ## Theorems -/

/-! ### Facts about the transition table -/

theorem transitions_completed_absorbing :
    ∀ e, INTERVIEW_STATE_TRANSITIONS InterviewState.COMPLETED e = none := by decide

theorem transitions_source_ne_completed :
    ∀ (st : InterviewState) (e : InterviewEvent),
      st = InterviewState.COMPLETED → INTERVIEW_STATE_TRANSITIONS st e = none := by decide

theorem transitions_target_completed_only_complete :
    ∀ (st : InterviewState) (e : InterviewEvent), e ≠ InterviewEvent.COMPLETE_INTERVIEW →
      INTERVIEW_STATE_TRANSITIONS st e ≠ some InterviewState.COMPLETED := by decide

theorem transitions_complete_targets_completed :
    ∀ (st : InterviewState) (ns : InterviewState),
      INTERVIEW_STATE_TRANSITIONS st InterviewEvent.COMPLETE_INTERVIEW = some ns →
      ns = InterviewState.COMPLETED := by decide

theorem transitions_target_micro_only_processing :
    ∀ (st : InterviewState) (e : InterviewEvent), e ≠ InterviewEvent.PROCESSING_DONE →
      INTERVIEW_STATE_TRANSITIONS st e ≠ some InterviewState.MICRO_FEEDBACK := by decide

/-! ### Repository update shapes -/

theorem save_interviewsById (r : Repo) (s : InterviewSession) (now : Nat) (id : String) :
    (r.save s now).interviewsById id =
      if id = s.id then some { s with updatedAt := now } else r.interviewsById id := by
  simp only [Repo.save]
  split <;> rfl

theorem save_activeByUser (r : Repo) (s : InterviewSession) (now : Nat) (u : String) :
    (r.save s now).activeInterviewByUser u =
      if s.state = InterviewState.COMPLETED then
        (if u = s.userId then none else r.activeInterviewByUser u)
      else
        (if u = s.userId then some s.id else r.activeInterviewByUser u) := by
  by_cases hc : s.state = InterviewState.COMPLETED <;>
    simp [Repo.save, hc]

theorem create_interviewsById (r : Repo) (s : InterviewSession) (id : String) :
    (r.create s).interviewsById id =
      if id = s.id then some s else r.interviewsById id := by
  simp only [Repo.create]
  split <;> rfl

theorem create_activeByUser (r : Repo) (s : InterviewSession) (u : String) :
    (r.create s).activeInterviewByUser u =
      if s.state = InterviewState.COMPLETED then r.activeInterviewByUser u
      else (if u = s.userId then some s.id else r.activeInterviewByUser u) := by
  by_cases hc : s.state = InterviewState.COMPLETED <;>
    simp [Repo.create, hc]

/-! ### Commit shapes -/

theorem commit_snd (r : Repo) (s : InterviewSession) (ns : InterviewState) (p : Payload)
    (now : Nat) :
    (commit r s ns p now).2 =
      .ok { state := ns, screen := mapStateToScreen ns, payload := p } := rfl

theorem commit_fst_byId (r : Repo) (s : InterviewSession) (ns : InterviewState) (p : Payload)
    (now : Nat) (id : String) :
    (commit r s ns p now).1.interviewsById id =
      if id = s.id then some { s.transition ns now with updatedAt := now }
      else r.interviewsById id := by
  simp only [commit]
  rw [save_interviewsById]
  rfl

theorem commit_snd_state {r : Repo} {s : InterviewSession} {ns : InterviewState} {p : Payload}
    {now : Nat} {res : DispatchResult} (h : (commit r s ns p now).2 = .ok res) :
    res.state = ns := by
  rw [commit_snd] at h
  have h' := Except.ok.inj h
  subst h'
  rfl

/-! ### C3: Adaptation Engine decision rules -/

/-- C3: `AdaptationEngine.decide` is pure and total (it is a Lean function),
and for every `questionOrdinal` and `totalQuestions` it evaluates the rules in
order, first match winning: ordinal ≥ total−1 gives COMPLETE; else ordinal > 0
with (ordinal+1) divisible by 5 gives CHECKPOINT; otherwise NEXT_QUESTION.
For totalQuestions = 10: ordinal 4 gives CHECKPOINT, 9 gives COMPLETE, 2 gives
NEXT_QUESTION. -/
theorem decide_rules_in_order :
    (∀ (qi tq : Int) (f : Option Feedback),
      (AdaptationEngine.decide qi tq f).action =
        (if qi ≥ tq - 1 then NextAction.COMPLETE
         else if qi > 0 ∧ (qi + 1) % 5 = 0 then NextAction.CHECKPOINT
         else NextAction.NEXT_QUESTION)) ∧
    (AdaptationEngine.decide 4 10 none).action = NextAction.CHECKPOINT ∧
    (AdaptationEngine.decide 9 10 none).action = NextAction.COMPLETE ∧
    (AdaptationEngine.decide 2 10 none).action = NextAction.NEXT_QUESTION := by
  refine ⟨?_, by decide, by decide, by decide⟩
  intro qi tq f
  simp only [AdaptationEngine.decide]
  split_ifs <;> rfl

/-! ### C7: feedback duration buckets -/

/-- C7: `generateMockFeedback` scores deterministically by duration bucket:
d < 30s gives score 2 with the TOO_SHORT flag; 30–60s and 180–300s give the
neutral score 3 with no flag; 60–180s gives score 4 with the well-structured
strengths; d > 300s gives score 3 with the TOO_LONG flag.  The message is
derived from the score and every feedback is marked provisional (the source's
`partial: true`).  A 90000 ms answer scores 4. -/
theorem generateMockFeedback_buckets :
    (∀ d : Int,
      (FeedbackEngine.generateMockFeedback d).provisional = true ∧
      (FeedbackEngine.generateMockFeedback d).message =
        FeedbackEngine.messageForScore (FeedbackEngine.generateMockFeedback d).score ∧
      (d < 30000 → (FeedbackEngine.generateMockFeedback d).score = 2 ∧
        (FeedbackEngine.generateMockFeedback d).flags = ["TOO_SHORT"]) ∧
      (30000 ≤ d ∧ d < 60000 → (FeedbackEngine.generateMockFeedback d).score = 3 ∧
        (FeedbackEngine.generateMockFeedback d).flags = []) ∧
      (60000 ≤ d ∧ d ≤ 180000 → (FeedbackEngine.generateMockFeedback d).score = 4 ∧
        (FeedbackEngine.generateMockFeedback d).strengths =
          ["Good answer length", "Well-structured response"]) ∧
      (180000 < d ∧ d ≤ 300000 → (FeedbackEngine.generateMockFeedback d).score = 3 ∧
        (FeedbackEngine.generateMockFeedback d).flags = []) ∧
      (300000 < d → (FeedbackEngine.generateMockFeedback d).score = 3 ∧
        (FeedbackEngine.generateMockFeedback d).flags = ["TOO_LONG"])) ∧
    (FeedbackEngine.generateMockFeedback 90000).score = 4 := by
  refine ⟨?_, by decide⟩
  intro d
  unfold FeedbackEngine.generateMockFeedback
  split_ifs with h1 h2 h3
  · exact ⟨rfl, rfl, fun _ => ⟨rfl, rfl⟩, fun h => absurd h.1 (by omega),
      fun h => absurd h.1 (by omega), fun h => absurd h.1 (by omega),
      fun h => absurd h (by omega)⟩
  · exact ⟨rfl, rfl, fun h => absurd h h1, fun h => absurd h.2 (by omega),
      fun h => absurd h.2 (by omega), fun h => absurd h.2 (by omega),
      fun _ => ⟨rfl, rfl⟩⟩
  · exact ⟨rfl, rfl, fun h => absurd h h1, fun h => absurd h.2 (by omega),
      fun _ => ⟨rfl, rfl⟩, fun h => absurd h.1 (by omega),
      fun h => absurd h h2⟩
  · exact ⟨rfl, rfl, fun h => absurd h h1, fun _ => ⟨rfl, rfl⟩,
      fun h => absurd h h3, fun _ => ⟨rfl, rfl⟩, fun h => absurd h h2⟩

/-- Witness for C7: concrete durations hit each bucket. -/
theorem generateMockFeedback_buckets_witness :
    (FeedbackEngine.generateMockFeedback 20000).score = 2 ∧
    (FeedbackEngine.generateMockFeedback 45000).score = 3 ∧
    (FeedbackEngine.generateMockFeedback 90000).score = 4 ∧
    (FeedbackEngine.generateMockFeedback 200000).score = 3 ∧
    (FeedbackEngine.generateMockFeedback 400000).flags = ["TOO_LONG"] :=
  ⟨((generateMockFeedback_buckets.1 20000).2.2.1 (by decide)).1,
   ((generateMockFeedback_buckets.1 45000).2.2.2.1 ⟨by decide, by decide⟩).1,
   generateMockFeedback_buckets.2,
   ((generateMockFeedback_buckets.1 200000).2.2.2.2.2.1 ⟨by decide, by decide⟩).1,
   ((generateMockFeedback_buckets.1 400000).2.2.2.2.2.2 (by decide)).2⟩

/-! ### C2: illegal events fail without mutation -/

/-- C2: if the (state, event) pair is absent from the transition table for the
session's current state, `next` fails with InvalidTransition and returns the
repository unchanged (so every field of the session is unchanged), and
repeating the dispatch yields the identical error. -/
theorem invalid_event_frozen :
    ∀ (r : Repo) (sid : String) (s : InterviewSession) (e : InterviewEvent)
      (d : Option Int) (now : Nat),
      r.interviewsById sid = some s →
      INTERVIEW_STATE_TRANSITIONS s.state e = none →
      next r sid e d now = (r, .error .invalidTransition) ∧
      next (next r sid e d now).1 sid e d now = (r, .error .invalidTransition) := by
  intro r sid s e d now hlook htab
  have h1 : next r sid e d now = (r, .error .invalidTransition) := by
    cases e
    case FEEDBACK_ACK =>
      have hne : s.state ≠ InterviewState.MICRO_FEEDBACK := by
        intro hmf
        rw [hmf] at htab
        simp [INTERVIEW_STATE_TRANSITIONS] at htab
      simp [next, hlook, hne]
    all_goals simp [next, hlook, htab]
  exact ⟨h1, by rw [h1]; exact h1⟩

/-- Witness for C2: dispatching RESUME on a session in QUESTION fails with
InvalidTransition and leaves the single-session repository unchanged. -/
theorem invalid_event_frozen_witness :
    next (singleRepo (mkSession "s1" "u1" .QUESTION 0 0 none)) "s1" .RESUME none 7 =
      (singleRepo (mkSession "s1" "u1" .QUESTION 0 0 none), .error .invalidTransition) :=
  (invalid_event_frozen (singleRepo (mkSession "s1" "u1" .QUESTION 0 0 none)) "s1"
    (mkSession "s1" "u1" .QUESTION 0 0 none) .RESUME none 7 (by simp [singleRepo, mkSession])
    (by decide)).1

/-! ### C9: updateHeartbeat touches only the heartbeat -/

/-- C9: for an existing session, the repository's `updateHeartbeat` replaces
the stored record by one differing only in `lastHeartbeat` (in particular
`updatedAt` is untouched), leaves every other record and the whole
active-session index unchanged — unlike `save`, which stores the record with
`updatedAt` set to the current time. -/
theorem updateHeartbeat_frame :
    ∀ (r : Repo) (id : String) (now : Nat) (s : InterviewSession),
      r.interviewsById id = some s →
      orchestratorUpdateHeartbeat r id now =
        .ok { r with interviewsById := fun i =>
                if i = id then some { s with lastHeartbeat := now }
                else r.interviewsById i } ∧
      (r.save s now).interviewsById s.id = some { s with updatedAt := now } := by
  intro r id now s hlook
  constructor
  · simp [orchestratorUpdateHeartbeat, Repo.updateHeartbeat, hlook]
  · rw [save_interviewsById]
    simp

/-- Witness for C9: a concrete heartbeat update at time 42. -/
theorem updateHeartbeat_frame_witness :
    orchestratorUpdateHeartbeat (singleRepo (mkSession "s1" "u1" .PAUSED 0 0 none)) "s1" 42 =
      .ok { singleRepo (mkSession "s1" "u1" .PAUSED 0 0 none) with
              interviewsById := fun i =>
                if i = "s1" then
                  some { mkSession "s1" "u1" .PAUSED 0 0 none with lastHeartbeat := 42 }
                else (singleRepo (mkSession "s1" "u1" .PAUSED 0 0 none)).interviewsById i } :=
  (updateHeartbeat_frame (singleRepo (mkSession "s1" "u1" .PAUSED 0 0 none)) "s1" 42
    (mkSession "s1" "u1" .PAUSED 0 0 none) (by simp [singleRepo, mkSession])).1

/-! ### C10: resume from a resumable, non-PAUSED state -/

/-- C10: on a session in QUESTION, MICRO_FEEDBACK or CHECKPOINT, `resume`
fails with InvalidTransition (the table only allows RESUME from PAUSED), but
only after persisting the session with `lastHeartbeat` and `updatedAt` bumped:
the failed resume is observable as a mutation. -/
theorem resume_nonpaused_observable_mutation :
    ∀ (r : Repo) (id : String) (s : InterviewSession) (now : Nat),
      r.interviewsById id = some s → s.id = id →
      (s.state = InterviewState.QUESTION ∨ s.state = InterviewState.MICRO_FEEDBACK ∨
        s.state = InterviewState.CHECKPOINT) →
      (resume r id now).2 = .error .invalidTransition ∧
      (resume r id now).1.interviewsById id =
        some { s with lastHeartbeat := now, updatedAt := now } := by
  intro r id s now hlook hid hst
  have hres : s.isResumable = true := by
    rcases hst with h | h | h <;> simp [InterviewSession.isResumable, h]
  have htab : INTERVIEW_STATE_TRANSITIONS s.state .RESUME = none := by
    rcases hst with h | h | h <;> simp [INTERVIEW_STATE_TRANSITIONS, h]
  have hbyid : (r.save (s.updateHeartbeat now) now).interviewsById id =
      some { s with lastHeartbeat := now, updatedAt := now } := by
    rw [save_interviewsById]
    simp [InterviewSession.updateHeartbeat, hid]
  constructor
  · simp [resume, hlook, hres, next, hbyid, htab]
  · simp [resume, hlook, hres, next, hbyid, htab]

/-- Witness for C10: resume on a QUESTION-state session at time 99. -/
theorem resume_nonpaused_observable_mutation_witness :
    (resume (singleRepo (mkSession "s1" "u1" .QUESTION 2 0 none)) "s1" 99).2 =
      .error .invalidTransition ∧
    (resume (singleRepo (mkSession "s1" "u1" .QUESTION 2 0 none)) "s1" 99).1.interviewsById "s1" =
      some { mkSession "s1" "u1" .QUESTION 2 0 none with lastHeartbeat := 99, updatedAt := 99 } :=
  resume_nonpaused_observable_mutation (singleRepo (mkSession "s1" "u1" .QUESTION 2 0 none))
    "s1" (mkSession "s1" "u1" .QUESTION 2 0 none) 99
    (by simp [singleRepo, mkSession]) rfl (Or.inl rfl)

/-! ### C6: what resume actually checks -/

/-- `next` never throws CannotResume: that error is raised only by the
`resume` wrapper's `isResumable` guard. -/
theorem next_ne_cannotResume (r : Repo) (sid : String) (e : InterviewEvent) (d : Option Int)
    (now : Nat) : (next r sid e d now).2 ≠ .error .cannotResume := by
  simp only [next]
  rcases hlook : r.interviewsById sid with _ | s
  · simp
  · cases e <;> (repeat' split) <;> simp [commit]

/-- C6 counterexample: a PAUSED session whose heartbeat is 25 hours old is
expired, yet `resume` succeeds (it never consults `isExpired`), contradicting
the claim that resume on an expired session fails with CannotResume. -/
theorem resume_expired_paused_succeeds :
    (mkSession "s1" "u1" .PAUSED 0 0 none).isExpired 90000000 = true ∧
    (mkSession "s1" "u1" .PAUSED 0 0 none).state = InterviewState.PAUSED ∧
    isOkResult (resume (singleRepo (mkSession "s1" "u1" .PAUSED 0 0 none)) "s1" 90000000).2 =
      true := by
  exact ⟨by decide, rfl, by rfl⟩

/-- C6 amended: `resume` fails with CannotResume exactly when the session is
not resumable (state outside {PAUSED, QUESTION, MICRO_FEEDBACK, CHECKPOINT});
expiry is never checked by resume. -/
theorem resume_cannotResume_iff_not_resumable :
    ∀ (r : Repo) (id : String) (s : InterviewSession) (now : Nat),
      r.interviewsById id = some s →
      ((resume r id now).2 = .error .cannotResume ↔ s.isResumable = false) := by
  intro r id s now hlook
  by_cases hres : s.isResumable = true
  · have hne := next_ne_cannotResume (r.save (s.updateHeartbeat now) now) id .RESUME none now
    simp [resume, hlook, hres, hne]
  · rw [Bool.not_eq_true] at hres
    simp [resume, hlook, hres]

/-- Witness for C6 (amended): a RECORDING-state session is not resumable and
resume fails with CannotResume. -/
theorem resume_cannotResume_iff_witness :
    ((resume (singleRepo (mkSession "s2" "u2" .RECORDING 0 0 none)) "s2" 5).2 =
        .error .cannotResume ↔
      (mkSession "s2" "u2" .RECORDING 0 0 none).isResumable = false) :=
  resume_cannotResume_iff_not_resumable (singleRepo (mkSession "s2" "u2" .RECORDING 0 0 none))
    "s2" (mkSession "s2" "u2" .RECORDING 0 0 none) 5 (by simp [singleRepo, mkSession])

/-! ### C1: FEEDBACK_ACK resolves its destination dynamically -/

theorem getQuestion_of_lt {i : Nat} (h : i < QuestionEngine.MOCK_QUESTIONS.length) :
    ∃ q, QuestionEngine.getQuestion i = some q := by
  refine ⟨QuestionEngine.MOCK_QUESTIONS.get ⟨i, h⟩, ?_⟩
  unfold QuestionEngine.getQuestion
  rw [if_neg (by omega)]
  exact List.get?_eq_get h

/-- C1: dispatching FEEDBACK_ACK on a session in MICRO_FEEDBACK resolves the
destination from the pending decision stored on the session: CHECKPOINT gives
state CHECKPOINT (with the checkpoint payload); COMPLETE gives state COMPLETED
and marks the session complete; any other pending decision (including none)
gives state QUESTION with the ordinal advanced by one, the just-answered
question id appended to the asked history, and the next question fetched.
On a session not in MICRO_FEEDBACK, FEEDBACK_ACK fails with
InvalidTransition. -/
theorem feedback_ack_dynamic_resolution :
    ∀ (r : Repo) (sid : String) (s : InterviewSession) (d : Option Int) (now : Nat),
      r.interviewsById sid = some s → s.id = sid →
      ((s.state ≠ InterviewState.MICRO_FEEDBACK →
          next r sid .FEEDBACK_ACK d now = (r, .error .invalidTransition)) ∧
       (s.state = InterviewState.MICRO_FEEDBACK →
         ((s.nextAction = some NextAction.CHECKPOINT →
            (next r sid .FEEDBACK_ACK d now).2 =
              .ok { state := .CHECKPOINT, screen := .CheckpointScreen
                  , payload := .checkpoint s.confidenceTrend
                      ((s.currentQuestionIndex : ℚ) / (s.totalQuestions : ℚ)) } ∧
            ((next r sid .FEEDBACK_ACK d now).1.interviewsById sid).map
              InterviewSession.state = some InterviewState.CHECKPOINT) ∧
          (s.nextAction = some NextAction.COMPLETE →
            (next r sid .FEEDBACK_ACK d now).2 =
              .ok { state := .COMPLETED, screen := .InterviewSummaryScreen
                  , payload := .completeAck (s.currentQuestionIndex + 1) } ∧
            ((next r sid .FEEDBACK_ACK d now).1.interviewsById sid).map
              InterviewSession.state = some InterviewState.COMPLETED ∧
            ((next r sid .FEEDBACK_ACK d now).1.interviewsById sid).map
              InterviewSession.completedAt = some (some now)) ∧
          ((s.nextAction = none ∨ s.nextAction = some NextAction.NEXT_QUESTION) →
            s.currentQuestionIndex + 1 < QuestionEngine.getTotalQuestions →
            ∃ qa qn, QuestionEngine.getQuestion s.currentQuestionIndex = some qa ∧
              QuestionEngine.getQuestion (s.currentQuestionIndex + 1) = some qn ∧
              (next r sid .FEEDBACK_ACK d now).2 =
                .ok { state := .QUESTION, screen := .QuestionScreen
                    , payload := .question qn } ∧
              ((next r sid .FEEDBACK_ACK d now).1.interviewsById sid).map
                InterviewSession.state = some InterviewState.QUESTION ∧
              ((next r sid .FEEDBACK_ACK d now).1.interviewsById sid).map
                InterviewSession.currentQuestionIndex =
                  some (s.currentQuestionIndex + 1) ∧
              ((next r sid .FEEDBACK_ACK d now).1.interviewsById sid).map
                InterviewSession.askedQuestions =
                  some (s.askedQuestions ++ [qa.id]))))) := by
  intro r sid s d now hlook hid
  constructor
  · intro hne
    simp [next, hlook, hne]
  · intro hmf
    refine ⟨?_, ?_, ?_⟩
    · intro hna
      constructor
      · simp [next, hlook, hmf, hna, commit, mapStateToScreen]
      · simp [next, hlook, hmf, hna, commit, save_interviewsById,
          InterviewSession.transition, hid]
    · intro hna
      refine ⟨?_, ?_, ?_⟩ <;>
        simp [next, hlook, hmf, hna, commit, save_interviewsById,
          InterviewSession.transition, InterviewSession.complete, hid, mapStateToScreen]
    · intro hna hlt
      obtain ⟨qa, hqa⟩ := getQuestion_of_lt
        (show s.currentQuestionIndex < QuestionEngine.MOCK_QUESTIONS.length by
          have := hlt
          unfold QuestionEngine.getTotalQuestions at this
          omega)
      obtain ⟨qn, hqn⟩ := getQuestion_of_lt
        (show s.currentQuestionIndex + 1 < QuestionEngine.MOCK_QUESTIONS.length by
          have := hlt
          unfold QuestionEngine.getTotalQuestions at this
          omega)
      refine ⟨qa, qn, hqa, hqn, ?_, ?_, ?_, ?_⟩ <;> rcases hna with h | h <;>
        simp [next, hlook, hmf, h, hqa, hqn, commit, save_interviewsById,
          InterviewSession.transition, hid, mapStateToScreen, Nat.add_sub_cancel]

/-- Witness for C1: the three pending decisions on concrete MICRO_FEEDBACK
sessions, plus the InvalidTransition case on an INTRO session. -/
theorem feedback_ack_dynamic_resolution_witness :
    (((next (singleRepo (mkSession "a" "u" .MICRO_FEEDBACK 4 0 (some .CHECKPOINT)))
        "a" .FEEDBACK_ACK none 3).1.interviewsById "a").map InterviewSession.state =
      some InterviewState.CHECKPOINT) ∧
    (((next (singleRepo (mkSession "b" "u" .MICRO_FEEDBACK 9 0 (some .COMPLETE)))
        "b" .FEEDBACK_ACK none 3).1.interviewsById "b").map InterviewSession.completedAt =
      some (some 3)) ∧
    (((next (singleRepo (mkSession "c" "u" .MICRO_FEEDBACK 0 0 (some .NEXT_QUESTION)))
        "c" .FEEDBACK_ACK none 3).1.interviewsById "c").map
      InterviewSession.currentQuestionIndex = some 1) ∧
    next (singleRepo (mkSession "e" "u" .INTRO 0 0 none)) "e" .FEEDBACK_ACK none 3 =
      (singleRepo (mkSession "e" "u" .INTRO 0 0 none), .error .invalidTransition) := by
  refine ⟨?_, ?_, ?_, ?_⟩
  · exact (((feedback_ack_dynamic_resolution
      (singleRepo (mkSession "a" "u" .MICRO_FEEDBACK 4 0 (some .CHECKPOINT))) "a"
      (mkSession "a" "u" .MICRO_FEEDBACK 4 0 (some .CHECKPOINT)) none 3
      (by simp [singleRepo, mkSession]) rfl).2 rfl).1 rfl).2
  · exact ((((feedback_ack_dynamic_resolution
      (singleRepo (mkSession "b" "u" .MICRO_FEEDBACK 9 0 (some .COMPLETE))) "b"
      (mkSession "b" "u" .MICRO_FEEDBACK 9 0 (some .COMPLETE)) none 3
      (by simp [singleRepo, mkSession]) rfl).2 rfl).2.1 rfl).2).2
  · obtain ⟨qa, qn, hqa, hqn, hres, hst, hidx, hask⟩ :=
      (((feedback_ack_dynamic_resolution
        (singleRepo (mkSession "c" "u" .MICRO_FEEDBACK 0 0 (some .NEXT_QUESTION))) "c"
        (mkSession "c" "u" .MICRO_FEEDBACK 0 0 (some .NEXT_QUESTION)) none 3
        (by simp [singleRepo, mkSession]) rfl).2 rfl).2.2) (Or.inr rfl) (by decide)
    exact hidx
  · exact (feedback_ack_dynamic_resolution
      (singleRepo (mkSession "e" "u" .INTRO 0 0 none)) "e"
      (mkSession "e" "u" .INTRO 0 0 none) none 3
      (by simp [singleRepo, mkSession]) rfl).1 (by decide)

/-! ### C8: lifecycle of the pending decision -/

/-- C8 counterexample: a successful FEEDBACK_ACK dispatch does NOT clear the
pending decision — the session stored after the dispatch still carries
`nextAction = some NEXT_QUESTION`. -/
theorem pending_decision_not_cleared :
    isOkResult (next (singleRepo (mkSession "s8" "u8" .MICRO_FEEDBACK 0 0
      (some .NEXT_QUESTION))) "s8" .FEEDBACK_ACK none 5).2 = true ∧
    ((next (singleRepo (mkSession "s8" "u8" .MICRO_FEEDBACK 0 0 (some .NEXT_QUESTION)))
        "s8" .FEEDBACK_ACK none 5).1.interviewsById "s8").map InterviewSession.nextAction =
      some (some NextAction.NEXT_QUESTION) := ⟨rfl, rfl⟩

/-- C8 amended: the pending decision stored by PROCESSING_DONE is consumed by
the next FEEDBACK_ACK but NOT cleared (it stays on the session).  No stale
consumption is possible anyway: a successful FEEDBACK_ACK never leaves the
session in MICRO_FEEDBACK (so an immediate second FEEDBACK_ACK fails), and
the only dispatch that puts a session into MICRO_FEEDBACK is PROCESSING_DONE,
which freshly overwrites the pending decision with the Adaptation Engine's
output. -/
theorem pending_decision_freshness :
    ∀ (r : Repo) (sid : String) (s : InterviewSession) (d : Option Int) (now : Nat),
      r.interviewsById sid = some s → s.id = sid →
      ((∀ res, (next r sid .FEEDBACK_ACK d now).2 = .ok res →
          res.state ≠ InterviewState.MICRO_FEEDBACK ∧
          ((next r sid .FEEDBACK_ACK d now).1.interviewsById sid).map
            InterviewSession.nextAction = some s.nextAction) ∧
       (∀ (e : InterviewEvent) (res : DispatchResult),
          (next r sid e d now).2 = .ok res →
          res.state = InterviewState.MICRO_FEEDBACK →
          e = InterviewEvent.PROCESSING_DONE ∧
          ((next r sid e d now).1.interviewsById sid).map InterviewSession.nextAction =
            some (some (AdaptationEngine.decide (s.currentQuestionIndex : Int)
              (s.totalQuestions : Int) s.lastFeedback).action))) := by
  intro r sid s d now hlook hid
  constructor
  · intro res hok
    by_cases hmf : s.state = InterviewState.MICRO_FEEDBACK
    · rcases hna : s.nextAction with _ | a
      · rcases hq1 : QuestionEngine.getQuestion s.currentQuestionIndex with _ | qa
        · simp [next, hlook, hmf, hna, hq1] at hok
        · rcases hq2 : QuestionEngine.getQuestion (s.currentQuestionIndex + 1) with _ | qn
          · simp [next, hlook, hmf, hna, hq1, hq2] at hok
          · simp [next, hlook, hmf, hna, hq1, hq2, commit] at hok
            subst hok
            refine ⟨by simp, ?_⟩
            simp [next, hlook, hmf, hna, hq1, hq2, commit, save_interviewsById,
              InterviewSession.transition, hid]
      · cases a with
        | NEXT_QUESTION =>
          rcases hq1 : QuestionEngine.getQuestion s.currentQuestionIndex with _ | qa
          · simp [next, hlook, hmf, hna, hq1] at hok
          · rcases hq2 : QuestionEngine.getQuestion (s.currentQuestionIndex + 1) with _ | qn
            · simp [next, hlook, hmf, hna, hq1, hq2] at hok
            · simp [next, hlook, hmf, hna, hq1, hq2, commit] at hok
              subst hok
              refine ⟨by simp, ?_⟩
              simp [next, hlook, hmf, hna, hq1, hq2, commit, save_interviewsById,
                InterviewSession.transition, hid]
        | CHECKPOINT =>
          simp [next, hlook, hmf, hna, commit] at hok
          subst hok
          refine ⟨by simp, ?_⟩
          simp [next, hlook, hmf, hna, commit, save_interviewsById,
            InterviewSession.transition, hid]
        | COMPLETE =>
          simp [next, hlook, hmf, hna, commit] at hok
          subst hok
          refine ⟨by simp, ?_⟩
          simp [next, hlook, hmf, hna, commit, save_interviewsById,
            InterviewSession.transition, InterviewSession.complete, hid]
    · simp [next, hlook, hmf] at hok
  · intro e res hok hstate
    cases e with
    | PROCESSING_DONE =>
      rcases htab : INTERVIEW_STATE_TRANSITIONS s.state .PROCESSING_DONE with _ | ns
      · simp [next, hlook, htab] at hok
      · refine ⟨rfl, ?_⟩
        simp [next, hlook, htab, commit, save_interviewsById,
          InterviewSession.transition, hid]
    | FEEDBACK_ACK =>
      by_cases hmf : s.state = InterviewState.MICRO_FEEDBACK
      · rcases hna : s.nextAction with _ | a
        · rcases hq1 : QuestionEngine.getQuestion s.currentQuestionIndex with _ | qa
          · simp [next, hlook, hmf, hna, hq1] at hok
          · rcases hq2 : QuestionEngine.getQuestion (s.currentQuestionIndex + 1) with _ | qn
            · simp [next, hlook, hmf, hna, hq1, hq2] at hok
            · simp [next, hlook, hmf, hna, hq1, hq2, commit] at hok
              subst hok
              simp at hstate
        · cases a with
          | NEXT_QUESTION =>
            rcases hq1 : QuestionEngine.getQuestion s.currentQuestionIndex with _ | qa
            · simp [next, hlook, hmf, hna, hq1] at hok
            · rcases hq2 : QuestionEngine.getQuestion (s.currentQuestionIndex + 1) with _ | qn
              · simp [next, hlook, hmf, hna, hq1, hq2] at hok
              · simp [next, hlook, hmf, hna, hq1, hq2, commit] at hok
                subst hok
                simp at hstate
          | CHECKPOINT =>
            simp [next, hlook, hmf, hna, commit] at hok
            subst hok
            simp at hstate
          | COMPLETE =>
            simp [next, hlook, hmf, hna, commit] at hok
            subst hok
            simp at hstate
      · simp [next, hlook, hmf] at hok
    | INTRO_DONE =>
      rcases htab : INTERVIEW_STATE_TRANSITIONS s.state .INTRO_DONE with _ | ns
      · simp [next, hlook, htab] at hok
      · rcases hq : QuestionEngine.getQuestion s.currentQuestionIndex with _ | q
        · simp [next, hlook, htab, hq] at hok
        · simp [next, hlook, htab, hq, commit] at hok
          subst hok
          simp at hstate
          rw [hstate] at htab
          exact absurd htab (transitions_target_micro_only_processing s.state _ (by decide))
    | START_RECORDING =>
      rcases htab : INTERVIEW_STATE_TRANSITIONS s.state .START_RECORDING with _ | ns
      · simp [next, hlook, htab] at hok
      · simp [next, hlook, htab, commit] at hok
        subst hok
        simp at hstate
        rw [hstate] at htab
        exact absurd htab (transitions_target_micro_only_processing s.state _ (by decide))
    | ANSWER_SUBMITTED =>
      rcases htab : INTERVIEW_STATE_TRANSITIONS s.state .ANSWER_SUBMITTED with _ | ns
      · simp [next, hlook, htab] at hok
      · simp [next, hlook, htab, commit] at hok
        subst hok
        simp at hstate
        rw [hstate] at htab
        exact absurd htab (transitions_target_micro_only_processing s.state _ (by decide))
    | CHECKPOINT_ACK =>
      rcases htab : INTERVIEW_STATE_TRANSITIONS s.state .CHECKPOINT_ACK with _ | ns
      · simp [next, hlook, htab] at hok
      · rcases hq : QuestionEngine.getQuestion (s.currentQuestionIndex + 1) with _ | q
        · simp [next, hlook, htab, hq] at hok
        · simp [next, hlook, htab, hq, commit] at hok
          subst hok
          simp at hstate
          rw [hstate] at htab
          exact absurd htab (transitions_target_micro_only_processing s.state _ (by decide))
    | COMPLETE_INTERVIEW =>
      rcases htab : INTERVIEW_STATE_TRANSITIONS s.state .COMPLETE_INTERVIEW with _ | ns
      · simp [next, hlook, htab] at hok
      · simp [next, hlook, htab, InterviewSession.complete,
          transitions_completed_absorbing] at hok
    | PAUSE =>
      rcases htab : INTERVIEW_STATE_TRANSITIONS s.state .PAUSE with _ | ns
      · simp [next, hlook, htab] at hok
      · simp [next, hlook, htab, commit] at hok
        subst hok
        simp at hstate
        rw [hstate] at htab
        exact absurd htab (transitions_target_micro_only_processing s.state _ (by decide))
    | RESUME =>
      rcases htab : INTERVIEW_STATE_TRANSITIONS s.state .RESUME with _ | ns
      · simp [next, hlook, htab] at hok
      · rcases hq : QuestionEngine.getQuestion s.currentQuestionIndex with _ | q
        · simp [next, hlook, htab, hq] at hok
        · simp [next, hlook, htab, hq, commit] at hok
          subst hok
          simp at hstate
          rw [hstate] at htab
          exact absurd htab (transitions_target_micro_only_processing s.state _ (by decide))

/-- Witness for C8 (amended): dispatching PROCESSING_DONE on a PROCESSING
session leaves it in MICRO_FEEDBACK with the freshly computed decision
stored. -/
theorem pending_decision_freshness_witness :
    ((next (singleRepo (mkSession "p" "u" .PROCESSING 0 0 none)) "p"
        .PROCESSING_DONE none 4).1.interviewsById "p").map InterviewSession.nextAction =
      some (some NextAction.NEXT_QUESTION) := by
  have h := ((pending_decision_freshness (singleRepo (mkSession "p" "u" .PROCESSING 0 0 none))
      "p" (mkSession "p" "u" .PROCESSING 0 0 none) none 4
      (by simp [singleRepo, mkSession]) rfl).2
      InterviewEvent.PROCESSING_DONE
      { state := .MICRO_FEEDBACK, screen := .MicroFeedbackScreen
      , payload := .decision { action := .NEXT_QUESTION
                             , reason := "Continue to next question"
                             , confidence := 95/100 } }
      (by rfl) rfl).2
  exact h.trans (by decide)

/-! ### C4: a session is COMPLETED iff completedAt is set -/

theorem completion_iff_of_ne {ns : InterviewState} {c : Option Nat}
    (h1 : ns ≠ InterviewState.COMPLETED) (h2 : c = none) :
    (ns = InterviewState.COMPLETED ↔ c ≠ none) := by
  subst h2
  simp [h1]

theorem state_ne_completed_of_table {st : InterviewState} {e : InterviewEvent}
    {ns : InterviewState} (h : INTERVIEW_STATE_TRANSITIONS st e = some ns) :
    st ≠ InterviewState.COMPLETED := by
  intro hc
  rw [hc, transitions_completed_absorbing] at h
  exact Option.noConfusion h

theorem target_ne_completed {st : InterviewState} {e : InterviewEvent} {ns : InterviewState}
    (h : INTERVIEW_STATE_TRANSITIONS st e = some ns)
    (he : e ≠ InterviewEvent.COMPLETE_INTERVIEW) :
    ns ≠ InterviewState.COMPLETED := by
  intro hns
  rw [hns] at h
  exact transitions_target_completed_only_complete st e he h

theorem completionInv_save {r : Repo} {s : InterviewSession} {now : Nat}
    (hInv : completionInv r)
    (hs : s.state = InterviewState.COMPLETED ↔ s.completedAt ≠ none) :
    completionInv (r.save s now) := by
  intro id s' hstore
  rw [save_interviewsById] at hstore
  by_cases hid : id = s.id
  · rw [if_pos hid] at hstore
    obtain rfl := (Option.some.inj hstore).symm
    simpa using hs
  · rw [if_neg hid] at hstore
    exact hInv id s' hstore

theorem completionInv_reflect {r : Repo} {s : InterviewSession}
    (hInv : completionInv r)
    (hs : s.state = InterviewState.COMPLETED ↔ s.completedAt ≠ none) :
    completionInv (r.reflect s) := by
  intro id s' hstore
  simp only [Repo.reflect] at hstore
  by_cases hid : id = s.id
  · rw [if_pos hid] at hstore
    obtain rfl := (Option.some.inj hstore).symm
    exact hs
  · rw [if_neg hid] at hstore
    exact hInv id s' hstore

theorem completionInv_create {r : Repo} {s : InterviewSession}
    (hInv : completionInv r)
    (hs : s.state = InterviewState.COMPLETED ↔ s.completedAt ≠ none) :
    completionInv (r.create s) := by
  intro id s' hstore
  rw [create_interviewsById] at hstore
  by_cases hid : id = s.id
  · rw [if_pos hid] at hstore
    obtain rfl := (Option.some.inj hstore).symm
    exact hs
  · rw [if_neg hid] at hstore
    exact hInv id s' hstore

theorem completionInv_commit {r : Repo} {s : InterviewSession} {ns : InterviewState}
    {p : Payload} {now : Nat} (hInv : completionInv r)
    (h : ns = InterviewState.COMPLETED ↔ s.completedAt ≠ none) :
    completionInv (commit r s ns p now).1 := by
  show completionInv (r.save (s.transition ns now) now)
  exact completionInv_save hInv (by simpa [InterviewSession.transition] using h)

theorem completionInv_next (r : Repo) (sid : String) (e : InterviewEvent) (d : Option Int)
    (now : Nat) (hInv : completionInv r) : completionInv (next r sid e d now).1 := by
  rcases hlook : r.interviewsById sid with _ | s
  · simpa [next, hlook] using hInv
  · have hs := hInv sid s hlook
    have hnone : s.state ≠ InterviewState.COMPLETED → s.completedAt = none := by
      intro h
      by_contra hne
      exact h (hs.mpr hne)
    cases e with
    | INTRO_DONE =>
      rcases htab : INTERVIEW_STATE_TRANSITIONS s.state .INTRO_DONE with _ | ns
      · simpa [next, hlook, htab] using hInv
      · rcases hq : QuestionEngine.getQuestion s.currentQuestionIndex with _ | q
        · simpa [next, hlook, htab, hq] using hInv
        · have hcomm : (next r sid .INTRO_DONE d now).1 =
              (commit r s ns (.question q) now).1 := by
            simp [next, hlook, htab, hq]
          rw [hcomm]
          exact completionInv_commit hInv
            (completion_iff_of_ne (target_ne_completed htab (by decide))
              (hnone (state_ne_completed_of_table htab)))
    | START_RECORDING =>
      rcases htab : INTERVIEW_STATE_TRANSITIONS s.state .START_RECORDING with _ | ns
      · simpa [next, hlook, htab] using hInv
      · have hcomm : (next r sid .START_RECORDING d now).1 =
            (commit r s ns .empty now).1 := by
          simp [next, hlook, htab]
        rw [hcomm]
        exact completionInv_commit hInv
          (completion_iff_of_ne (target_ne_completed htab (by decide))
            (hnone (state_ne_completed_of_table htab)))
    | ANSWER_SUBMITTED =>
      rcases htab : INTERVIEW_STATE_TRANSITIONS s.state .ANSWER_SUBMITTED with _ | ns
      · simpa [next, hlook, htab] using hInv
      · have hcomm : (next r sid .ANSWER_SUBMITTED d now).1 =
            (commit r (s.updateFeedback (FeedbackEngine.generateMockFeedback (d.getD 60000)) now)
              ns (.feedback (FeedbackEngine.generateMockFeedback (d.getD 60000))) now).1 := by
          simp [next, hlook, htab]
        rw [hcomm]
        refine completionInv_commit hInv ?_
        refine completion_iff_of_ne (target_ne_completed htab (by decide)) ?_
        simpa [InterviewSession.updateFeedback] using
          hnone (state_ne_completed_of_table htab)
    | PROCESSING_DONE =>
      rcases htab : INTERVIEW_STATE_TRANSITIONS s.state .PROCESSING_DONE with _ | ns
      · simpa [next, hlook, htab] using hInv
      · have hcomm : (next r sid .PROCESSING_DONE d now).1 =
            (commit r { s with nextAction := some (AdaptationEngine.decide (s.currentQuestionIndex : Int) (s.totalQuestions : Int) s.lastFeedback).action } ns (.decision (AdaptationEngine.decide (s.currentQuestionIndex : Int) (s.totalQuestions : Int) s.lastFeedback)) now).1 := by
          simp [next, hlook, htab]
        rw [hcomm]
        refine completionInv_commit hInv ?_
        refine completion_iff_of_ne (target_ne_completed htab (by decide)) ?_
        simpa using hnone (state_ne_completed_of_table htab)
    | FEEDBACK_ACK =>
      by_cases hmf : s.state = InterviewState.MICRO_FEEDBACK
      · have hcn : s.completedAt = none := hnone (by rw [hmf]; simp)
        rcases hna : s.nextAction with _ | a
        · rcases hq1 : QuestionEngine.getQuestion s.currentQuestionIndex with _ | qa
          · have hcomm : (next r sid .FEEDBACK_ACK d now).1 =
                r.reflect { s with currentQuestionIndex := s.currentQuestionIndex + 1 } := by
              simp [next, hlook, hmf, hna, hq1]
            rw [hcomm]
            exact completionInv_reflect hInv (by simpa [hcn] using hs)
          · rcases hq2 : QuestionEngine.getQuestion (s.currentQuestionIndex + 1) with _ | qn
            · have hcomm : (next r sid .FEEDBACK_ACK d now).1 =
                  r.reflect { s with currentQuestionIndex := s.currentQuestionIndex + 1, askedQuestions := s.askedQuestions ++ [qa.id] } := by
                simp [next, hlook, hmf, hna, hq1, hq2]
              rw [hcomm]
              exact completionInv_reflect hInv (by simpa [hcn] using hs)
            · have hcomm : (next r sid .FEEDBACK_ACK d now).1 =
                  (commit r { s with currentQuestionIndex := s.currentQuestionIndex + 1, askedQuestions := s.askedQuestions ++ [qa.id] } .QUESTION (.question qn) now).1 := by
                simp [next, hlook, hmf, hna, hq1, hq2]
              rw [hcomm]
              exact completionInv_commit hInv (by simp [hcn])
        · cases a with
          | NEXT_QUESTION =>
            rcases hq1 : QuestionEngine.getQuestion s.currentQuestionIndex with _ | qa
            · have hcomm : (next r sid .FEEDBACK_ACK d now).1 =
                  r.reflect { s with currentQuestionIndex := s.currentQuestionIndex + 1 } := by
                simp [next, hlook, hmf, hna, hq1]
              rw [hcomm]
              exact completionInv_reflect hInv (by simpa [hcn] using hs)
            · rcases hq2 : QuestionEngine.getQuestion (s.currentQuestionIndex + 1) with _ | qn
              · have hcomm : (next r sid .FEEDBACK_ACK d now).1 =
                    r.reflect { s with currentQuestionIndex := s.currentQuestionIndex + 1, askedQuestions := s.askedQuestions ++ [qa.id] } := by
                  simp [next, hlook, hmf, hna, hq1, hq2]
                rw [hcomm]
                exact completionInv_reflect hInv (by simpa [hcn] using hs)
              · have hcomm : (next r sid .FEEDBACK_ACK d now).1 =
                    (commit r { s with currentQuestionIndex := s.currentQuestionIndex + 1, askedQuestions := s.askedQuestions ++ [qa.id] } .QUESTION (.question qn) now).1 := by
                  simp [next, hlook, hmf, hna, hq1, hq2]
                rw [hcomm]
                exact completionInv_commit hInv (by simp [hcn])
          | CHECKPOINT =>
            have hcomm : (next r sid .FEEDBACK_ACK d now).1 =
                (commit r s .CHECKPOINT (.checkpoint s.confidenceTrend
                  ((s.currentQuestionIndex : ℚ) / (s.totalQuestions : ℚ))) now).1 := by
              simp [next, hlook, hmf, hna]
            rw [hcomm]
            exact completionInv_commit hInv (by simp [hcn])
          | COMPLETE =>
            have hcomm : (next r sid .FEEDBACK_ACK d now).1 =
                (commit r (s.complete now) .COMPLETED
                  (.completeAck (s.currentQuestionIndex + 1)) now).1 := by
              simp [next, hlook, hmf, hna]
            rw [hcomm]
            exact completionInv_commit hInv (by simp [InterviewSession.complete])
      · simpa [next, hlook, hmf] using hInv
    | CHECKPOINT_ACK =>
      rcases htab : INTERVIEW_STATE_TRANSITIONS s.state .CHECKPOINT_ACK with _ | ns
      · simpa [next, hlook, htab] using hInv
      · rcases hq : QuestionEngine.getQuestion (s.currentQuestionIndex + 1) with _ | q
        · have hcomm : (next r sid .CHECKPOINT_ACK d now).1 =
              r.reflect { s with currentQuestionIndex := s.currentQuestionIndex + 1 } := by
            simp [next, hlook, htab, hq]
          rw [hcomm]
          refine completionInv_reflect hInv ?_
          simpa [hnone (state_ne_completed_of_table htab)] using hs
        · have hcomm : (next r sid .CHECKPOINT_ACK d now).1 =
              (commit r { s with currentQuestionIndex := s.currentQuestionIndex + 1 }
                ns (.question q) now).1 := by
            simp [next, hlook, htab, hq]
          rw [hcomm]
          refine completionInv_commit hInv ?_
          refine completion_iff_of_ne (target_ne_completed htab (by decide)) ?_
          simpa using hnone (state_ne_completed_of_table htab)
    | COMPLETE_INTERVIEW =>
      rcases htab : INTERVIEW_STATE_TRANSITIONS s.state .COMPLETE_INTERVIEW with _ | ns
      · simpa [next, hlook, htab] using hInv
      · have hcomm : (next r sid .COMPLETE_INTERVIEW d now).1 =
            r.reflect (s.complete now) := by
          simp [next, hlook, htab, InterviewSession.complete,
            transitions_completed_absorbing]
        rw [hcomm]
        exact completionInv_reflect hInv (by simp [InterviewSession.complete])
    | PAUSE =>
      rcases htab : INTERVIEW_STATE_TRANSITIONS s.state .PAUSE with _ | ns
      · simpa [next, hlook, htab] using hInv
      · have hcomm : (next r sid .PAUSE d now).1 =
            (commit r { s with previousState := some s.state } ns
              (.paused "Interview paused" s.state) now).1 := by
          simp [next, hlook, htab]
        rw [hcomm]
        refine completionInv_commit hInv ?_
        refine completion_iff_of_ne (target_ne_completed htab (by decide)) ?_
        simpa using hnone (state_ne_completed_of_table htab)
    | RESUME =>
      rcases htab : INTERVIEW_STATE_TRANSITIONS s.state .RESUME with _ | ns
      · simpa [next, hlook, htab] using hInv
      · rcases hq : QuestionEngine.getQuestion s.currentQuestionIndex with _ | q
        · simpa [next, hlook, htab, hq] using hInv
        · have hcomm : (next r sid .RESUME d now).1 =
              (commit r s ns (.resumedQ q "Interview resumed") now).1 := by
            simp [next, hlook, htab, hq]
          rw [hcomm]
          exact completionInv_commit hInv
            (completion_iff_of_ne (target_ne_completed htab (by decide))
              (hnone (state_ne_completed_of_table htab)))

theorem completionInv_start (r : Repo) (sid uid rid : String) (now : Nat)
    (hInv : completionInv r) : completionInv (startInterview r sid uid rid now).1 := by
  unfold startInterview
  exact completionInv_next _ sid .INTRO_DONE none now (completionInv_create hInv (by simp))

theorem completionInv_resume_op (r : Repo) (sid : String) (now : Nat)
    (hInv : completionInv r) : completionInv (resume r sid now).1 := by
  rcases hlook : r.interviewsById sid with _ | s
  · simpa [resume, hlook] using hInv
  · by_cases hres : s.isResumable = true
    · have hs := hInv sid s hlook
      have h1 : completionInv (r.save (s.updateHeartbeat now) now) :=
        completionInv_save hInv (by simpa [InterviewSession.updateHeartbeat] using hs)
      have hcomm : (resume r sid now).1 =
          (next (r.save (s.updateHeartbeat now) now) sid .RESUME none now).1 := by
        simp [resume, hlook, hres]
      rw [hcomm]
      exact completionInv_next _ sid .RESUME none now h1
    · rw [Bool.not_eq_true] at hres
      simpa [resume, hlook, hres] using hInv

theorem completionInv_updateHeartbeat {r r' : Repo} {sid : String} {now : Nat}
    (h : Repo.updateHeartbeat r sid now = .ok r') (hInv : completionInv r) :
    completionInv r' := by
  rcases hlook : r.interviewsById sid with _ | s
  · simp [Repo.updateHeartbeat, hlook] at h
  · simp only [Repo.updateHeartbeat, hlook, Except.ok.injEq] at h
    subst h
    intro id s' hstore
    dsimp only at hstore
    by_cases hi : id = sid
    · rw [if_pos hi] at hstore
      obtain rfl := (Option.some.inj hstore).symm
      simpa using hInv sid s hlook
    · rw [if_neg hi] at hstore
      exact hInv id s' hstore

/-- C4: for every repository reachable through the orchestrator's operations,
every stored session has state COMPLETED exactly when its `completedAt` is
set. -/
theorem reachable_completed_iff_completedAt :
    ∀ (r : Repo), Reachable r → ∀ (id : String) (s : InterviewSession),
      r.interviewsById id = some s →
      (s.state = InterviewState.COMPLETED ↔ s.completedAt ≠ none) := by
  intro r hr
  induction hr with
  | empty => intro id s h; simp [emptyRepo] at h
  | start r sid uid rid now _ ih => exact completionInv_start r sid uid rid now ih
  | step r sid e d now _ ih => exact completionInv_next r sid e d now ih
  | resumeStep r sid now _ ih => exact completionInv_resume_op r sid now ih
  | heartbeatStep r r' sid now _ h ih => exact completionInv_updateHeartbeat h ih

/-- Witness for C4: the session stored by a concrete `startInterview` on the
empty repository satisfies the completion invariant. -/
theorem reachable_completed_iff_completedAt_witness :
    ((startInterview emptyRepo "s1" "u1" "r1" 0).1.interviewsById "s1").elim True
      (fun s => s.state = InterviewState.COMPLETED ↔ s.completedAt ≠ none) := by
  have hre : Reachable (startInterview emptyRepo "s1" "u1" "r1" 0).1 :=
    Reachable.start emptyRepo "s1" "u1" "r1" 0 Reachable.empty
  rcases hlook : (startInterview emptyRepo "s1" "u1" "r1" 0).1.interviewsById "s1" with _ | s
  · trivial
  · exact reachable_completed_iff_completedAt _ hre "s1" s hlook

/-! ### C5: the active-session index only points at live sessions -/

/-- C5: the user→active-session index only points at stored, non-COMPLETED
sessions of that user.  `create` (with a fresh id, as `startInterview`
generates) indexes a non-COMPLETED session as the user's active session,
silently replacing any prior pointer with no conflict error, and `save`
removes the user's pointer when the session is COMPLETED and (re)adds it
otherwise; both preserve the index invariant (for `save`, under the
primary-key discipline that a record saved under an existing id belongs to
the same user). -/
theorem store_active_index_wf :
    ∀ (r : Repo) (s : InterviewSession) (now : Nat),
      ((RepoWF r → r.interviewsById s.id = none → RepoWF (r.create s)) ∧
       (s.state ≠ InterviewState.COMPLETED →
          (r.create s).activeInterviewByUser s.userId = some s.id) ∧
       (RepoWF r → (∀ old, r.interviewsById s.id = some old → old.userId = s.userId) →
          RepoWF (r.save s now)) ∧
       (s.state = InterviewState.COMPLETED →
          (r.save s now).activeInterviewByUser s.userId = none) ∧
       (s.state ≠ InterviewState.COMPLETED →
          (r.save s now).activeInterviewByUser s.userId = some s.id)) := by
  intro r s now
  refine ⟨?_, ?_, ?_, ?_, ?_⟩
  · intro hWF hfresh u id hptr
    rw [create_activeByUser] at hptr
    by_cases hc : s.state = InterviewState.COMPLETED
    · rw [if_pos hc] at hptr
      obtain ⟨t, hstore, hut, hts⟩ := hWF u id hptr
      have hne : id ≠ s.id := by
        intro he
        rw [he, hfresh] at hstore
        exact Option.noConfusion hstore
      exact ⟨t, by rw [create_interviewsById, if_neg hne]; exact hstore, hut, hts⟩
    · rw [if_neg hc] at hptr
      by_cases hu : u = s.userId
      · rw [if_pos hu] at hptr
        obtain rfl := (Option.some.inj hptr).symm
        exact ⟨s, by rw [create_interviewsById, if_pos rfl], hu.symm, hc⟩
      · rw [if_neg hu] at hptr
        obtain ⟨t, hstore, hut, hts⟩ := hWF u id hptr
        have hne : id ≠ s.id := by
          intro he
          rw [he, hfresh] at hstore
          exact Option.noConfusion hstore
        exact ⟨t, by rw [create_interviewsById, if_neg hne]; exact hstore, hut, hts⟩
  · intro hc
    rw [create_activeByUser, if_neg hc, if_pos rfl]
  · intro hWF hsame u id hptr
    rw [save_activeByUser] at hptr
    by_cases hc : s.state = InterviewState.COMPLETED
    · rw [if_pos hc] at hptr
      by_cases hu : u = s.userId
      · rw [if_pos hu] at hptr
        exact Option.noConfusion hptr
      · rw [if_neg hu] at hptr
        obtain ⟨t, hstore, hut, hts⟩ := hWF u id hptr
        have hne : id ≠ s.id := by
          intro he
          rw [he] at hstore
          exact hu (hut.symm.trans (hsame t hstore))
        exact ⟨t, by rw [save_interviewsById, if_neg hne]; exact hstore, hut, hts⟩
    · rw [if_neg hc] at hptr
      by_cases hu : u = s.userId
      · rw [if_pos hu] at hptr
        obtain rfl := (Option.some.inj hptr).symm
        refine ⟨{ s with updatedAt := now }, ?_, ?_, ?_⟩
        · rw [save_interviewsById, if_pos rfl]
        · simpa using hu.symm
        · simpa using hc
      · rw [if_neg hu] at hptr
        obtain ⟨t, hstore, hut, hts⟩ := hWF u id hptr
        have hne : id ≠ s.id := by
          intro he
          rw [he] at hstore
          exact hu (hut.symm.trans (hsame t hstore))
        exact ⟨t, by rw [save_interviewsById, if_neg hne]; exact hstore, hut, hts⟩
  · intro hc
    rw [save_activeByUser, if_pos hc, if_pos rfl]
  · intro hc
    rw [save_activeByUser, if_neg hc, if_pos rfl]

/-- Witness for C5: creating a fresh session in the empty store indexes it;
saving it back as COMPLETED removes the pointer; the invariant holds. -/
theorem store_active_index_wf_witness :
    RepoWF (emptyRepo.create (mkSession "s1" "u1" .INTRO 0 0 none)) ∧
    (emptyRepo.create (mkSession "s1" "u1" .INTRO 0 0 none)).activeInterviewByUser "u1" =
      some "s1" ∧
    ((emptyRepo.create (mkSession "s1" "u1" .INTRO 0 0 none)).save
        { mkSession "s1" "u1" .INTRO 0 0 none with state := .COMPLETED } 9).activeInterviewByUser
      "u1" = none := by
  refine ⟨?_, ?_, ?_⟩
  · exact (store_active_index_wf emptyRepo (mkSession "s1" "u1" .INTRO 0 0 none) 9).1
      (fun u id hptr => by simp [emptyRepo] at hptr) rfl
  · exact (store_active_index_wf emptyRepo (mkSession "s1" "u1" .INTRO 0 0 none) 9).2.1
      (by decide)
  · exact (store_active_index_wf (emptyRepo.create (mkSession "s1" "u1" .INTRO 0 0 none))
      { mkSession "s1" "u1" .INTRO 0 0 none with state := .COMPLETED } 9).2.2.2.1 rfl

end InterviewBE
